import Mathlib

/-!
Verification development for `klipper/extras/toolchanger.py` (klipper-toolchanger).

The Python module is shallowly embedded below.  Numeric machine values
(gcode positions, tool offsets) are modelled as rationals; Python `None`
becomes `Option`; Python exceptions become `Except` results.  Mutations of
the `Toolchanger` object are modelled by explicit state passing; since a
raised Python exception leaves prior mutations in place, stateful
operations return `Except (PyErr × World) World`, the error carrying the
state at the moment of the raise.

External collaborators are modelled at their interface:
* script templates (`run_gcode_from_command`) are opaque; each execution is
  described by a `ScriptEffect` drawn from the world's pending-effect list:
  the script completes silently, completes after invoking the error-signal
  command `SELECT_TOOL_ERROR` (the one status-affecting operation the
  documentation grants to scripts), or raises;
* commands sent to the gcode/motion/bed-mesh collaborators and messages
  reported to the user are recorded as an `Event` trace;
* `printer.lookup_object('bed_mesh')` followed by `mesh.get_mesh()` is
  modelled by the boolean `World.mesh` ("a bed mesh object is configured and
  a mesh is loaded").
-/

/-- Toolchanger status values (source constants `STATUS_UNINITALIZED`,
`STATUS_INITIALIZING`, `STATUS_READY`, `STATUS_CHANGING`, `STATUS_ERROR`,
whose values are the strings `'uninitialized'`, `'initializing'`, `'ready'`,
`'changing'`, `'error'`). -/
inductive Status
  | uninitialized
  | initializing
  | ready
  | changing
  | error
  deriving DecidableEq, Repr

/-- The string value of a status constant, used when a status is interpolated
into a message (`"..." + self.status`, `'%s' % self.status`). -/
def Status.str : Status → String
  | .uninitialized => "uninitialized"
  | .initializing => "initializing"
  | .ready => "ready"
  | .changing => "changing"
  | .error => "error"

/-- Source constants `INIT_ON_HOME = 0`, `INIT_MANUAL = 1`, `INIT_FIRST_USE = 2`. -/
def INIT_ON_HOME : Nat := 0

def INIT_MANUAL : Nat := 1

def INIT_FIRST_USE : Nat := 2

/-- A registered tool, with the fields of the tool object that
`toolchanger.py` reads: its name, its number, the three independently
optional gcode offsets (`None` when the tool config leaves the axis
undefined), and the default `RESTORE_AXIS` value.  The pickup/dropoff
script bodies are opaque (executions are modelled by `ScriptEffect`s). -/
structure Tool where
  name : String
  tool_number : Int
  gcode_x_offset : Option ℚ
  gcode_y_offset : Option ℚ
  gcode_z_offset : Option ℚ
  t_command_restore_axis : List Char
  deriving DecidableEq, Repr

/-- The mutable fields of the `Toolchanger` object that the embedded
operations touch.  The tool registry is the dict `self.tools` (modelled as
its lookup function) together with the two parallel ordered lists. -/
structure TCState where
  name : String
  status : Status
  active_tool : Option Tool
  tools : Int → Option Tool
  tool_numbers : List Int
  tool_names : List String
  error_message : String

/-- Python exceptions raised by the module:
`exception` is `raise Exception(msg)`, `gcmdError` is
`raise gcmd.error(msg)` / `raise self.gcode.error(msg)`, and the builtin
error classes raised by the runtime (`v += None` → `TypeError`,
`dict[missing]` → `KeyError`, `list.remove(missing)` → `ValueError`). -/
inductive PyErr
  | exception (msg : String)
  | gcmdError (msg : String)
  | typeError
  | keyError
  | valueError
  deriving DecidableEq, Repr

/-- Commands the module sends through `gcode.run_script_from_command`.
`setGcodeOffset x y z` stands for a `SET_GCODE_OFFSET` command whose text
contains an `X=`/`Y=`/`Z=` parameter exactly for the `some` fields;
`bedMeshOffset x y` is `BED_MESH_OFFSET X=x Y=y`; the two state commands
are `SAVE_GCODE_STATE NAME=_toolchange_state` and
`RESTORE_GCODE_STATE NAME=_toolchange_state MOVE=0`. -/
inductive GCmd
  | setGcodeOffset (x y z : Option ℚ)
  | bedMeshOffset (x y : ℚ)
  | saveGcodeState
  | restoreGcodeState
  deriving DecidableEq, Repr

/-- Observable interactions with the collaborators, in order. -/
inductive Event
  | cmd (c : GCmd)
  | hookRun (name : String)
  | respond (msg : Option String)
  | activate (toolName : String)
  | deactivate (toolName : String)
  | moveG0 (target : List (Char × ℚ))
  deriving DecidableEq, Repr

/-- The behavior of one script execution, as observed by the orchestrator. -/
inductive ScriptEffect
  | ok
  | signalErr (msg : String)
  | raiseErr (msg : String)
  deriving DecidableEq, Repr

/-- The toolchanger state plus the modelled environment: the pending script
behaviors, the event trace, the bed-mesh flag, the logical position reported
by `gcode_move.get_status()['gcode_position']`, and the configured
`initialize_on` policy (source field `initialize_on`). -/
structure World where
  tc : TCState
  effs : List ScriptEffect
  events : List Event
  mesh : Bool
  gcode_position : ℚ × ℚ × ℚ
  init_on : Nat

def emit (w : World) (e : Event) : World :=
  { w with events := w.events ++ [e] }

def setStatus (w : World) (st : Status) : World :=
  { w with tc := { w.tc with status := st } }

/-- Take the next pending script behavior (an empty list means every
remaining script completes silently). -/
def popEffect (w : World) : ScriptEffect × World :=
  match w.effs with
  | [] => (.ok, w)
  | e :: rest => (e, { w with effs := rest })

/-! ## Tool registry -/

/-- `list.remove(x)`: delete the first occurrence, `ValueError` if absent. -/
def listRemove {α : Type} [DecidableEq α] : List α → α → Except PyErr (List α)
  | [], _ => .error .valueError
  | a :: as, x =>
    if a = x then .ok as
    else
      match listRemove as x with
      | .error e => .error e
      | .ok l => .ok (a :: l)

/-- `bisect.bisect_left(a, x)`: the leftmost insertion point for `x` that
keeps a sorted `a` sorted, i.e. the length of the maximal prefix of
elements `< x` (the documented contract of the Python stdlib routine,
which the source only applies to its sorted `tool_numbers` list). -/
def bisect_left (a : List Int) (x : Int) : Nat :=
  (a.takeWhile (fun y => decide (y < x))).length

/-- The `if prev_number in self.tools:` removal block of `assign_tool`
(source lines 100–103): drop the dict entry and remove the number and the
new tool's name from the two ordered lists. -/
def assign_removed (s : TCState) (tool : Tool) (prev_number : Option Int) :
    Except PyErr TCState :=
  match prev_number with
  | none => .ok s
  | some prev =>
    if (s.tools prev).isSome = true then
      match listRemove s.tool_numbers prev with
      | .error e => .error e
      | .ok nums =>
        match listRemove s.tool_names tool.name with
        | .error e => .error e
        | .ok names =>
          .ok { s with
            tools := fun k => if k = prev then none else s.tools k
            tool_numbers := nums
            tool_names := names }
    else .ok s

/-- The insertion block of `assign_tool` (source lines 104–107): store the
tool in the dict and insert number and name at the `bisect_left` position
of both ordered lists. -/
def assign_insert (s1 : TCState) (tool : Tool) (number : Int) : TCState :=
  let position := bisect_left s1.tool_numbers number
  { s1 with
    tools := fun k => if k = number then some tool else s1.tools k
    tool_numbers := s1.tool_numbers.insertIdx position number
    tool_names := s1.tool_names.insertIdx position tool.name }

/-- `Toolchanger.assign_tool(tool, number, prev_number, replace)`
(source lines 97–107). -/
def assign_tool (s : TCState) (tool : Tool) (number : Int)
    (prev_number : Option Int) (replace : Bool) : Except PyErr TCState :=
  if (s.tools number).isSome = true ∧ replace = false then
    .error (.exception ("Duplicate tools with number " ++ toString number))
  else
    match assign_removed s tool prev_number with
    | .error e => .error e
    | .ok s1 => .ok (assign_insert s1 tool number)

/-- `Toolchanger.lookup_tool(number)` = `self.tools.get(number, None)`. -/
def lookup_tool (s : TCState) (number : Int) : Option Tool :=
  s.tools number

/-! ## Position/offset calculator -/

/-- `XYZ_TO_INDEX` dict; a key outside `'xXyYzZ'` raises `KeyError`. -/
def XYZ_TO_INDEX : Char → Option Nat
  | 'x' => some 0
  | 'X' => some 0
  | 'y' => some 1
  | 'Y' => some 1
  | 'z' => some 2
  | 'Z' => some 2
  | _ => none

/-- `INDEX_TO_XYZ = 'XYZ'`, indexed (only ever applied to 0, 1, 2). -/
def INDEX_TO_XYZ : Nat → Char
  | 0 => 'X'
  | 1 => 'Y'
  | _ => 'Z'

/-- `position[index]` for the captured gcode position (indices 0, 1, 2). -/
def pos_get (p : ℚ × ℚ × ℚ) : Nat → ℚ
  | 0 => p.1
  | 1 => p.2.1
  | _ => p.2.2

/-- Python dict assignment `result[k] = v`: overwrite an existing key in
place, otherwise append. -/
def dictSet (d : List (Char × ℚ)) (k : Char) (v : ℚ) : List (Char × ℚ) :=
  if d.any (fun p => p.1 == k) then d.map (fun p => if p.1 = k then (k, v) else p)
  else d ++ [(k, v)]

/-- The loop body of `_restore_position_with_tool_offset`: when a tool is
given, `offset` is initialized to `0.` and then unconditionally overwritten
with the tool's (possibly `None`) offset for indices 0, 1, 2; adding `None`
to the float `v` raises `TypeError`. -/
def restore_loop (position : ℚ × ℚ × ℚ) (tool? : Option Tool) :
    List Char → List (Char × ℚ) → Except PyErr (List (Char × ℚ))
  | [], result => .ok result
  | i :: rest, result =>
    match XYZ_TO_INDEX i with
    | none => .error .keyError
    | some index =>
      let v := pos_get position index
      match tool? with
      | none => restore_loop position tool? rest (dictSet result (INDEX_TO_XYZ index) v)
      | some tool =>
        let offset : Option ℚ :=
          if index = 0 then tool.gcode_x_offset
          else if index = 1 then tool.gcode_y_offset
          else if index = 2 then tool.gcode_z_offset
          else some 0
        match offset with
        | none => .error .typeError
        | some off =>
          restore_loop position tool? rest (dictSet result (INDEX_TO_XYZ index) (v + off))

/-- `Toolchanger._restore_position_with_tool_offset(position, axis, tool)`
(source lines 324–339). -/
def restore_position_with_tool_offset (position : ℚ × ℚ × ℚ) (axis : List Char)
    (tool? : Option Tool) : Except PyErr (List (Char × ℚ)) :=
  restore_loop position tool? axis []

/-- `Toolchanger._restore_axis(position, axis, tool)` (source lines 341–345):
no-op on an empty axis string, otherwise one coordinated `G0` move to the
computed target. -/
def restore_axis_move (w : World) (position : ℚ × ℚ × ℚ) (axis : List Char)
    (tool? : Option Tool) : Except (PyErr × World) World :=
  if axis = [] then .ok w
  else
    match restore_position_with_tool_offset position axis tool? with
    | .error e => .error (e, w)
    | .ok pos => .ok (emit w (.moveG0 pos))

/-- `Toolchanger._set_tool_gcode_offset(tool)` (source lines 306–322).
The negations `-tool.gcode_x_offset` / `-tool.gcode_y_offset` in the
`BED_MESH_OFFSET` call raise `TypeError` when the offset is `None`. -/
def set_tool_gcode_offset (w : World) (tool? : Option Tool) :
    Except (PyErr × World) World :=
  match tool? with
  | none => .ok w
  | some tool =>
    if tool.gcode_x_offset = none ∧ tool.gcode_y_offset = none ∧
        tool.gcode_z_offset = none then
      .ok w
    else
      let w := emit w (.cmd (.setGcodeOffset tool.gcode_x_offset
        tool.gcode_y_offset tool.gcode_z_offset))
      if w.mesh then
        match tool.gcode_x_offset, tool.gcode_y_offset with
        | some ox, some oy => .ok (emit w (.cmd (.bedMeshOffset (-ox) (-oy))))
        | _, _ => .error (.typeError, w)
      else .ok w

/-! ## Error signalling and the hook runner -/

/-- `Toolchanger.cmd_SELECT_TOOL_ERROR(gcmd)` (source lines 167–173),
returning the new state and the `respond_info` messages it issued. -/
def cmd_SELECT_TOOL_ERROR (s : TCState) (message : String) : TCState × List String :=
  if s.status ≠ Status.changing ∧ s.status ≠ Status.initializing then
    (s, ["SELECT_TOOL_ERROR called while not selecting, doing nothing"])
  else
    ({ s with status := Status.error, error_message := message }, [])

/-- Run one script body: it completes silently, completes after invoking
`SELECT_TOOL_ERROR(msg)` (the status-affecting command available to
scripts), or raises `msg`. -/
def applyScriptEffect (w : World) : ScriptEffect → Except (String × World) World
  | .ok => .ok w
  | .signalErr m =>
    let r := cmd_SELECT_TOOL_ERROR w.tc m
    .ok { w with tc := r.1, events := w.events ++ r.2.map (fun s => Event.respond (some s)) }
  | .raiseErr m => .error (m, w)

/-- `Toolchanger.run_gcode(name, template, extra_context)` (source lines
347–362): capture the status, execute the template, re-raise any script
fault as `Exception('Script running error: %s' % e)`, then raise
`Exception('Unexpected status during %s, ...')` if the status changed. -/
def run_gcode (name : String) (w0 : World) : Except (PyErr × World) World :=
  let p := popEffect w0
  let current_status := p.2.tc.status
  let w := emit p.2 (.hookRun name)
  match applyScriptEffect w p.1 with
  | .error em => .error (.exception ("Script running error: " ++ em.1), em.2)
  | .ok w =>
    if current_status ≠ w.tc.status then
      .error (.exception ("Unexpected status during " ++ name ++ ", status = " ++
        w.tc.status.str ++ ", message = " ++ w.tc.error_message ++ ", aborting"), w)
    else .ok w

/-! ## Tool activation and the select/init algorithms -/

/-- `Toolchanger._configure_toolhead_for_tool(tool)` (source lines 299–304):
deactivate the old active tool, swap the reference, activate the new one. -/
def configure_toolhead_for_tool (w : World) (tool? : Option Tool) : World :=
  let w := match w.tc.active_tool with
    | some old => emit w (.deactivate old.name)
    | none => w
  let w := { w with tc := { w.tc with active_tool := tool? } }
  match tool? with
  | some t => emit w (.activate t.name)
  | none => w

/-- `'%s' % self.active_tool.name if self.active_tool else None`. -/
def activeNameStr (w : World) : String :=
  match w.tc.active_tool with
  | some t => t.name
  | none => "None"

/-- The `if select_tool:` block of `Toolchanger.initialize` (source lines
201–204): activate the tool, run the after-change hook, apply its offset. -/
def init_select_steps (w : World) (sel : Option Tool) : Except (PyErr × World) World :=
  match sel with
  | none => .ok w
  | some t =>
    let w := configure_toolhead_for_tool w (some t)
    match run_gcode "after_change_gcode" w with
    | .error e => .error e
    | .ok w => set_tool_gcode_offset w (some t)

/-- `Toolchanger.initialize(select_tool)` (source lines 189–213).  The
source computes `should_run_initialize = status != STATUS_INITIALIZING`
once on entry and branches on it both before and after the middle steps;
here the two cases are the two arms of the outer `if`. -/
def initTC (w : World) (sel : Option Tool) : Except (PyErr × World) World :=
  if w.tc.status = Status.changing then
    .error (.exception "Cannot initialize while changing tools", w)
  else if w.tc.status = Status.initializing then
    init_select_steps w sel
  else
    match run_gcode "initialize_gcode" (setStatus w Status.initializing) with
    | .error e => .error e
    | .ok w1 =>
      match init_select_steps w1 sel with
      | .error e => .error e
      | .ok w2 =>
        if w2.tc.status = Status.initializing then
          .ok (emit (setStatus w2 Status.ready)
            (.respond (some (w2.tc.name ++ " initialized, active " ++ activeNameStr w2))))
        else
          .error (.gcmdError (w2.tc.name ++ " failed to initialize, error: " ++
            w2.tc.error_message), w2)

/-- `'Tool %s already selected' % tool.name if tool else None`: by Python
precedence this is the whole formatted string when a tool is given, and
`None` otherwise. -/
def alreadySelectedMsg : Option Tool → Option String
  | some t => some ("Tool " ++ t.name ++ " already selected")
  | none => none

/-- The final `respond_info` of `select_tool`. -/
def selectedMsg : Option Tool → String
  | some t => "Selected tool " ++ toString t.tool_number ++ " (" ++ t.name ++ ")"
  | none => "Tool unselected"

/-- The tool-change sequence of `Toolchanger.select_tool` after the
guards (source lines 226–265). -/
def select_tool_body (w : World) (tool? : Option Tool) (restore_axis : List Char) :
    Except (PyErr × World) World :=
  let w := setStatus w Status.changing
  let gcode_position := w.gcode_position
  match restore_position_with_tool_offset gcode_position restore_axis tool? with
  | .error e => .error (e, w)
  | .ok _restore_position =>
  let w := emit w (.cmd .saveGcodeState)
  match run_gcode "before_change_gcode" w with
  | .error e => .error e
  | .ok w =>
  let w := emit w (.cmd (.setGcodeOffset (some 0) (some 0) (some 0)))
  match ((match w.tc.active_tool with
         | some _ => run_gcode "tool.dropoff_gcode" w
         | none => .ok w) : Except (PyErr × World) World) with
  | .error e => .error e
  | .ok w =>
  match ((match tool? with
         | some t =>
           let w := configure_toolhead_for_tool w (some t)
           match run_gcode "tool.pickup_gcode" w with
           | .error e => .error e
           | .ok w => run_gcode "after_change_gcode" w
         | none => .ok w) : Except (PyErr × World) World) with
  | .error e => .error e
  | .ok w =>
  match restore_axis_move w gcode_position restore_axis tool? with
  | .error e => .error e
  | .ok w =>
  let w := emit w (.cmd .restoreGcodeState)
  match ((match tool? with
         | some t => set_tool_gcode_offset w (some t)
         | none => .ok w) : Except (PyErr × World) World) with
  | .error e => .error e
  | .ok w =>
  let w := setStatus w Status.ready
  .ok (emit w (.respond (some (selectedMsg tool?))))

/-- `Toolchanger.select_tool(gcmd, tool, restore_axis)` (source lines
215–265). -/
def select_tool (w0 : World) (tool? : Option Tool) (restore_axis : List Char) :
    Except (PyErr × World) World :=
  match (if w0.tc.status = Status.uninitialized ∧ w0.init_on = INIT_FIRST_USE
         then initTC w0 none else .ok w0) with
  | .error e => .error e
  | .ok w =>
    if w.tc.status ≠ Status.ready then
      .error (.gcmdError ("Cannot select tool, toolchanger status is " ++ w.tc.status.str), w)
    else if w.tc.active_tool = tool? then
      .ok (emit w (.respond (alreadySelectedMsg tool?)))
    else
      select_tool_body w tool? restore_axis

/-- `Toolchanger.cmd_UNSELECT_TOOL(gcmd)` (source lines 176–180):
return immediately when no tool is active, otherwise unselect via
`select_tool(gcmd, None, restore_axis)`. -/
def cmd_UNSELECT_TOOL (w : World) (restore_axis_arg : Option (List Char)) :
    Except (PyErr × World) World :=
  match w.tc.active_tool with
  | none => .ok w
  | some t =>
    let restore_axis := restore_axis_arg.getD t.t_command_restore_axis
    select_tool w none restore_axis

/-- `Except.isOk`-style discriminator used in theorem statements. -/
def exceptIsOk {ε α : Type} : Except ε α → Bool
  | Except.ok _ => true
  | Except.error _ => false

/-- The exception component of a stateful result. -/
def errOf {α : Type} : Except (PyErr × World) α → Option PyErr
  | Except.error e => some e.1
  | Except.ok _ => none

/-! ## Registry well-formedness -/

/-- Index correspondence between the number list, the name list and the
mapping: the tool registered under a listed number bears the name listed at
the same index. -/
def RegR (f : Int → Option Tool) (n : Int) (m : String) : Prop :=
  ∃ t, f n = some t ∧ t.name = m

/-- The registry invariant the spec claims: numbers sorted and duplicate
free, names duplicate free, the mapping's keys are exactly the listed
numbers, and the two lists correspond index by index to the mapping. -/
structure RegWF (s : TCState) : Prop where
  sorted : List.Sorted (· ≤ ·) s.tool_numbers
  nodup_numbers : s.tool_numbers.Nodup
  nodup_names : s.tool_names.Nodup
  keys : ∀ n : Int, (s.tools n).isSome = true ↔ n ∈ s.tool_numbers
  corr : List.Forall₂ (RegR s.tools) s.tool_numbers s.tool_names

/-! ## Concrete fixtures for witnesses and counterexamples -/

/-- Base toolchanger state: ready, empty registry, no active tool. -/
def tc0 : TCState :=
  { name := "tc", status := Status.ready, active_tool := none,
    tools := fun _ => none, tool_numbers := [], tool_names := [],
    error_message := "" }

/-- Base world: all hooks complete silently, no bed mesh, position at the
origin, first-use policy. -/
def w0 : World :=
  { tc := tc0, effs := [], events := [], mesh := false,
    gcode_position := (0, 0, 0), init_on := INIT_FIRST_USE }

def T1 : Tool := ⟨"T1", 1, none, none, none, []⟩

/-- Ready world with T1 mounted and registered. -/
def W1 : World :=
  { w0 with tc :=
    { tc0 with
      active_tool := some T1
      tools := fun k => if k = 1 then some T1 else none
      tool_numbers := [1]
      tool_names := ["T1"] } }

/-- A tool whose X offset is undefined. -/
def T2 : Tool := ⟨"T2", 2, none, some 4, some 5, []⟩

/-- World whose next script raises `boom`. -/
def W3 : World := { w0 with effs := [ScriptEffect.raiseErr "boom"] }

/-- Mid-change world whose next script invokes `SELECT_TOOL_ERROR`. -/
def W3b : World :=
  { w0 with
    tc := { tc0 with status := Status.changing }
    effs := [ScriptEffect.signalErr "fail"] }

/-- State of `W3b` after its hook signalled the error. -/
def W3b2 : World :=
  { w0 with
    tc := { tc0 with status := Status.error, error_message := "fail" }
    events := [Event.hookRun "hook2"] }

def toolA : Tool := ⟨"A", 1, none, none, none, []⟩

def toolB : Tool := ⟨"B", 2, none, none, none, []⟩

def toolC : Tool := ⟨"C", 3, none, none, none, []⟩

/-- Registry holding tools 1 ↦ A and 3 ↦ C. -/
def s5 : TCState :=
  { tc0 with
    tools := fun k => if k = 1 then some toolA else if k = 3 then some toolC else none
    tool_numbers := [1, 3]
    tool_names := ["A", "C"] }

/-- `s5` after registering B under number 2. -/
def s5' : TCState :=
  { s5 with
    tools := fun k => if k = 2 then some toolB else s5.tools k
    tool_numbers := [1, 2, 3]
    tool_names := ["A", "B", "C"] }

/-- Registry holding tools 1 ↦ A and 2 ↦ B. -/
def s6 : TCState :=
  { tc0 with
    tools := fun k => if k = 1 then some toolA else if k = 2 then some toolB else none
    tool_numbers := [1, 2]
    tool_names := ["A", "B"] }

/-- `s5` after re-registering A from number 1 to the fresh number 2. -/
def s5r : TCState :=
  { s5 with
    tools := fun k => if k = 2 then some toolA else if k = 1 then none else s5.tools k
    tool_numbers := [2, 3]
    tool_names := ["A", "C"] }

def T8 : Tool := ⟨"T8", 8, none, none, none, []⟩

/-- World already in the initializing status (re-entrant call case). -/
def W8i : World := { w0 with tc := { tc0 with status := Status.initializing } }

/-- `W8i` after the re-entrant activation steps for `T8`. -/
def W8i' : World :=
  { w0 with
    tc := { tc0 with status := Status.initializing, active_tool := some T8 }
    events := [Event.activate "T8", Event.hookRun "after_change_gcode"] }

/-- Mid-change world (initialization is rejected here). -/
def W8c : World := { w0 with tc := { tc0 with status := Status.changing } }

/-- Fresh uninitialized world. -/
def W8u : World := { w0 with tc := { tc0 with status := Status.uninitialized } }

/-- `W8u` after a successful outermost initialization. -/
def W8u' : World :=
  { w0 with
    tc := { tc0 with status := Status.ready }
    events := [Event.hookRun "initialize_gcode",
      Event.respond (some "tc initialized, active None")] }

def T9 : Tool := ⟨"T9", 9, some 1, some 2, none, []⟩

def T9n : Tool := ⟨"T9n", 4, none, none, none, []⟩

def Tz : Tool := ⟨"Tz", 5, none, none, some 5, []⟩

/-- World with a loaded bed mesh. -/
def W9m : World := { w0 with mesh := true }

/-- Mid-change toolchanger state. -/
def tcChg : TCState := { tc0 with status := Status.changing }

/-! ## Claim C1 -/

/-- C1 (code bug evidence): a `select_tool` unselect call (`tool = None`)
that completes without fault ends with status `ready` but with the
previously active tool still recorded as active — the active-tool swap
(`_configure_toolhead_for_tool`) only runs when a new tool is given, so
`activeTool` is not emptied by an unselect, contradicting the claim. -/
theorem C1_unselect_leaves_active_tool :
    (select_tool W1 none []).toOption.map
      (fun w => (w.tc.status, w.tc.active_tool.map Tool.name)) =
      some (Status.ready, some "T1") := rfl

/-! ## Claim C2 -/

/-- C2 (code bug evidence): with a tool present that defines no X offset,
restoring axis `X` raises `TypeError` (`v += None`) instead of returning
the unmodified coordinate claimed by the spec. -/
theorem C2_restore_none_offset_raises :
    restore_position_with_tool_offset (10, 20, 30) ['X'] (some T2) =
      .error PyErr.typeError := rfl

/-! ## Claim C3 -/

/-- C3 (counterexample): the fault raised when a hook's script fails is
`Exception('Script running error: boom')`; it is identical whichever hook
name was being run, so it does not carry the hook name as claimed. -/
theorem C3_hook_fault_counterexample :
    errOf (run_gcode "before_change_gcode" W3) =
      some (PyErr.exception "Script running error: boom") ∧
    errOf (run_gcode "before_change_gcode" W3) =
      errOf (run_gcode "tool.pickup_gcode" W3) := ⟨rfl, rfl⟩

/-- C3 (amended): if the script raises, `run_gcode` re-raises a
script-running exception carrying the original fault's message (but not the
hook name); if the script completes and the status changed from its
captured pre-call value, `run_gcode` raises the unexpected-status exception
carrying the hook name, the new status and the recorded error message. -/
theorem C3_run_gcode_spec (name : String) (w w1 w2 : World) (eff : ScriptEffect)
    (m : String) (hpop : popEffect w = (eff, w1)) :
    (eff = ScriptEffect.raiseErr m →
      run_gcode name w =
        .error (.exception ("Script running error: " ++ m), emit w1 (.hookRun name))) ∧
    (applyScriptEffect (emit w1 (.hookRun name)) eff = .ok w2 →
      w1.tc.status ≠ w2.tc.status →
      run_gcode name w =
        .error (.exception ("Unexpected status during " ++ name ++ ", status = " ++
          w2.tc.status.str ++ ", message = " ++ w2.tc.error_message ++
          ", aborting"), w2)) := by
  constructor
  · intro heff
    subst heff
    simp [run_gcode, hpop, applyScriptEffect]
  · intro happ hne
    simp only [run_gcode, hpop, happ]
    simp [hne]

/-- C3 witness: instances of both branches at concrete worlds. -/
theorem C3_run_gcode_spec_witness :
    popEffect W3 = (ScriptEffect.raiseErr "boom", { W3 with effs := [] }) ∧
    run_gcode "hook1" W3 =
      .error (.exception ("Script running error: " ++ "boom"),
        emit { W3 with effs := [] } (.hookRun "hook1")) ∧
    applyScriptEffect (emit { W3b with effs := [] } (.hookRun "hook2"))
      (ScriptEffect.signalErr "fail") = .ok W3b2 ∧
    ({ W3b with effs := [] } : World).tc.status ≠ W3b2.tc.status ∧
    run_gcode "hook2" W3b =
      .error (.exception ("Unexpected status during " ++ "hook2" ++ ", status = " ++
        W3b2.tc.status.str ++ ", message = " ++ W3b2.tc.error_message ++
        ", aborting"), W3b2) :=
  ⟨rfl,
   (C3_run_gcode_spec "hook1" W3 { W3 with effs := [] } w0
     (ScriptEffect.raiseErr "boom") "boom" rfl).1 rfl,
   rfl, by decide,
   (C3_run_gcode_spec "hook2" W3b { W3b with effs := [] } W3b2
     (ScriptEffect.signalErr "fail") "" rfl).2 rfl (by decide)⟩

/-! ## Claim C4 -/

/-- C4: `SELECT_TOOL_ERROR` sets status to `error` and records the message
exactly when the status is `changing` or `initializing`; in every other
status it is a pure no-op that only reports the misuse (and, being a total
function, never raises). -/
theorem C4_signal_error_spec (s : TCState) (msg : String) :
    ((s.status = Status.changing ∨ s.status = Status.initializing) →
      cmd_SELECT_TOOL_ERROR s msg =
        ({ s with status := Status.error, error_message := msg }, [])) ∧
    (s.status ≠ Status.changing → s.status ≠ Status.initializing →
      cmd_SELECT_TOOL_ERROR s msg =
        (s, ["SELECT_TOOL_ERROR called while not selecting, doing nothing"])) := by
  constructor
  · rintro (h | h) <;> simp [cmd_SELECT_TOOL_ERROR, h]
  · intro h1 h2
    simp [cmd_SELECT_TOOL_ERROR, h1, h2]

/-- C4 witness: both branches at concrete states. -/
theorem C4_signal_error_spec_witness :
    (tcChg.status = Status.changing ∨ tcChg.status = Status.initializing) ∧
    cmd_SELECT_TOOL_ERROR tcChg "fail" =
      ({ tcChg with status := Status.error, error_message := "fail" }, []) ∧
    tc0.status ≠ Status.changing ∧ tc0.status ≠ Status.initializing ∧
    cmd_SELECT_TOOL_ERROR tc0 "fail" =
      (tc0, ["SELECT_TOOL_ERROR called while not selecting, doing nothing"]) :=
  ⟨Or.inl rfl, (C4_signal_error_spec tcChg "fail").1 (Or.inl rfl),
   by decide, by decide,
   (C4_signal_error_spec tc0 "fail").2 (by decide) (by decide)⟩

/-! ## Claim C7 -/

/-- C7: selecting the already-active tool (including both empty) from the
ready status is a no-op: the state, the pending scripts and the issued
commands are untouched — no hooks run, no status transition — and the only
effect is the already-selected report (which is the literal message when a
tool is given, and a `None` report text in the both-empty case). -/
theorem C7_select_already_active_noop (w : World) (tool? : Option Tool)
    (axis : List Char) (h1 : w.tc.status = Status.ready)
    (h2 : w.tc.active_tool = tool?) :
    select_tool w tool? axis = .ok (emit w (.respond (alreadySelectedMsg tool?))) := by
  simp [select_tool, h1, h2]

/-- C7 witness: re-selecting the mounted tool T1. -/
theorem C7_select_already_active_noop_witness :
    W1.tc.status = Status.ready ∧ W1.tc.active_tool = some T1 ∧
    select_tool W1 (some T1) [] =
      .ok (emit W1 (.respond (alreadySelectedMsg (some T1)))) :=
  ⟨rfl, rfl, C7_select_already_active_noop W1 (some T1) [] rfl rfl⟩

/-! ## Claim C9 -/

/-- C9 (counterexample): with no bed mesh loaded, applying the offsets of a
tool that defines X and Y offsets issues only the offset-set command — no
compensation-adjustment call follows, contrary to the claim. -/
theorem C9_no_mesh_counterexample :
    (set_tool_gcode_offset w0 (some T9)).toOption.map World.events =
      some [Event.cmd (GCmd.setGcodeOffset (some 1) (some 2) none)] := rfl

/-- C9 (amended): `_set_tool_gcode_offset` is a no-op when the tool defines
no offset on any axis; otherwise it issues one offset-set command carrying
exactly the defined axes (absent axes are omitted from the command, not
zeroed), and then: with no bed mesh loaded nothing else is issued; with a
bed mesh loaded and both X and Y offsets defined it issues the
compensation-adjustment call with the negated X/Y offsets; with a bed mesh
loaded but X or Y undefined it raises `TypeError` (negating `None`). -/
theorem C9_offset_spec (w : World) (tool : Tool) :
    (tool.gcode_x_offset = none → tool.gcode_y_offset = none →
      tool.gcode_z_offset = none →
      set_tool_gcode_offset w (some tool) = .ok w) ∧
    (¬(tool.gcode_x_offset = none ∧ tool.gcode_y_offset = none ∧
        tool.gcode_z_offset = none) →
      (w.mesh = false →
        set_tool_gcode_offset w (some tool) =
          .ok (emit w (.cmd (.setGcodeOffset tool.gcode_x_offset
            tool.gcode_y_offset tool.gcode_z_offset)))) ∧
      (∀ ox oy, w.mesh = true → tool.gcode_x_offset = some ox →
        tool.gcode_y_offset = some oy →
        set_tool_gcode_offset w (some tool) =
          .ok (emit (emit w (.cmd (.setGcodeOffset tool.gcode_x_offset
            tool.gcode_y_offset tool.gcode_z_offset)))
            (.cmd (.bedMeshOffset (-ox) (-oy))))) ∧
      (w.mesh = true → (tool.gcode_x_offset = none ∨ tool.gcode_y_offset = none) →
        set_tool_gcode_offset w (some tool) =
          .error (.typeError, emit w (.cmd (.setGcodeOffset tool.gcode_x_offset
            tool.gcode_y_offset tool.gcode_z_offset))))) := by
  refine ⟨fun hx hy hz => by simp [set_tool_gcode_offset, hx, hy, hz], fun hno => ⟨?_, ?_, ?_⟩⟩
  · intro hmesh
    simp [set_tool_gcode_offset, hno, emit, hmesh]
  · intro ox oy hmesh hxo hyo
    simp [set_tool_gcode_offset, hno, emit, hmesh, hxo, hyo]
  · intro hmesh hxy
    rcases hxy with hx | hy
    · simp [set_tool_gcode_offset, hno, emit, hmesh, hx]
      exact fun hy2 hz2 => hno ⟨hx, hy2, hz2⟩
    · cases hox : tool.gcode_x_offset
      · simp [set_tool_gcode_offset, hno, emit, hmesh, hox, hy]
        exact fun hz2 => hno ⟨hox, hy, hz2⟩
      · simp [set_tool_gcode_offset, hno, emit, hmesh, hox, hy]

/-- C9 witness: all four behaviors at concrete tools and worlds. -/
theorem C9_offset_spec_witness :
    set_tool_gcode_offset w0 (some T9n) = .ok w0 ∧
    w0.mesh = false ∧
    set_tool_gcode_offset w0 (some T9) =
      .ok (emit w0 (.cmd (.setGcodeOffset T9.gcode_x_offset
        T9.gcode_y_offset T9.gcode_z_offset))) ∧
    W9m.mesh = true ∧
    set_tool_gcode_offset W9m (some T9) =
      .ok (emit (emit W9m (.cmd (.setGcodeOffset T9.gcode_x_offset
        T9.gcode_y_offset T9.gcode_z_offset)))
        (.cmd (.bedMeshOffset (-1) (-2)))) ∧
    set_tool_gcode_offset W9m (some Tz) =
      .error (.typeError, emit W9m (.cmd (.setGcodeOffset Tz.gcode_x_offset
        Tz.gcode_y_offset Tz.gcode_z_offset))) :=
  ⟨(C9_offset_spec w0 T9n).1 rfl rfl rfl, rfl,
   ((C9_offset_spec w0 T9).2 (by decide)).1 rfl, rfl,
   ((C9_offset_spec W9m T9).2 (by decide)).2.1 1 2 rfl rfl rfl,
   ((C9_offset_spec W9m Tz).2 (by decide)).2.2 rfl (Or.inl rfl)⟩

/-! ## Claim C10 -/

/-- C10: `UNSELECT_TOOL` with no active tool returns immediately: no error,
no hooks, no moves, no reports, and the whole world (status, active tool,
registry) is returned unchanged. -/
theorem C10_unselect_no_active_noop (w : World) (arg : Option (List Char))
    (h : w.tc.active_tool = none) :
    cmd_UNSELECT_TOOL w arg = .ok w := by
  simp [cmd_UNSELECT_TOOL, h]

/-- C10 witness: the base world has no active tool. -/
theorem C10_unselect_no_active_noop_witness :
    w0.tc.active_tool = none ∧ cmd_UNSELECT_TOOL w0 none = .ok w0 :=
  ⟨rfl, C10_unselect_no_active_noop w0 none rfl⟩

/-! ## Helper lemmas: `listRemove`, `bisect_left`, `insertIdx` -/

theorem listRemove_error {α : Type} [DecidableEq α] :
    ∀ (l : List α) (x : α) (e : PyErr), listRemove l x = .error e →
      e = PyErr.valueError := by
  intro l
  induction l with
  | nil =>
    intro x e h
    simp only [listRemove] at h
    injection h with h2
    exact h2.symm
  | cons a as ih =>
    intro x e h
    by_cases hax : a = x
    · simp [listRemove, hax] at h
    · simp only [listRemove, if_neg hax] at h
      cases hrec : listRemove as x with
      | error e2 =>
        rw [hrec] at h
        injection h with h2
        rw [← h2]
        exact ih x e2 hrec
      | ok l2 => rw [hrec] at h; cases h

theorem listRemove_of_mem {α : Type} [DecidableEq α] {x : α} :
    ∀ {l : List α}, x ∈ l → listRemove l x = .ok (l.erase x) := by
  intro l
  induction l with
  | nil => intro hx; cases hx
  | cons a as ih =>
    intro hx
    by_cases hax : a = x
    · subst hax
      simp [listRemove]
    · have hx' : x ∈ as := by
        rcases List.mem_cons.1 hx with h | h
        · exact absurd h.symm hax
        · exact h
      rw [List.erase_cons_tail]
      · simp only [listRemove, if_neg hax, ih hx']
      · simp [hax]

theorem listRemove_ok {α : Type} [DecidableEq α] :
    ∀ {l l' : List α} {x : α}, listRemove l x = .ok l' →
      x ∈ l ∧ l' = l.erase x := by
  intro l
  induction l with
  | nil => intro l' x h; simp [listRemove] at h
  | cons a as ih =>
    intro l' x h
    by_cases hax : a = x
    · subst hax
      simp only [listRemove, if_pos rfl] at h
      cases h
      exact ⟨List.mem_cons_self a as, (List.erase_cons_head a as).symm⟩
    · simp only [listRemove, if_neg hax] at h
      cases hrec : listRemove as x with
      | error e => rw [hrec] at h; cases h
      | ok l2 =>
        rw [hrec] at h
        obtain ⟨hxm, hl2⟩ := ih hrec
        cases h
        refine ⟨List.mem_cons_of_mem a hxm, ?_⟩
        rw [List.erase_cons_tail]
        · rw [hl2]
        · simp [hax]

theorem bisect_le_length (l : List Int) (x : Int) : bisect_left l x ≤ l.length :=
  (List.takeWhile_sublist _).length_le

theorem sorted_insert_bisect (x : Int) :
    ∀ (l : List Int), List.Sorted (· ≤ ·) l →
      List.Sorted (· ≤ ·) (l.insertIdx (bisect_left l x) x)
  | [], _ => by simp [bisect_left]
  | a :: as, h => by
    rw [List.sorted_cons] at h
    obtain ⟨ha, has⟩ := h
    by_cases hax : a < x
    · have hb : bisect_left (a :: as) x = bisect_left as x + 1 := by
        simp [bisect_left, List.takeWhile_cons, hax]
      rw [hb, List.insertIdx_succ_cons, List.sorted_cons]
      refine ⟨fun b hb2 => ?_, sorted_insert_bisect x as has⟩
      rcases (List.mem_insertIdx (bisect_le_length as x)).1 hb2 with rfl | hmem
      · exact le_of_lt hax
      · exact ha b hmem
    · have hb : bisect_left (a :: as) x = 0 := by
        simp [bisect_left, List.takeWhile_cons, hax]
      rw [hb, List.insertIdx_zero, List.sorted_cons]
      refine ⟨fun b hb2 => ?_, List.sorted_cons.2 ⟨ha, has⟩⟩
      rcases List.mem_cons.1 hb2 with rfl | hmem
      · exact not_lt.1 hax
      · exact le_trans (not_lt.1 hax) (ha b hmem)

theorem insertIdx_perm {α : Type} (x : α) :
    ∀ (p : Nat) (l : List α), p ≤ l.length → (l.insertIdx p x).Perm (x :: l)
  | 0, l, _ => by rw [List.insertIdx_zero]
  | p + 1, [], h => by simp at h
  | p + 1, a :: as, h => by
    rw [List.insertIdx_succ_cons]
    exact ((insertIdx_perm x p as (Nat.le_of_succ_le_succ h)).cons a).trans
      (List.Perm.swap x a as)

/-! ## Helper lemmas: registry correspondence -/

theorem forall2_mem_left {α β : Type} {R : α → β → Prop} :
    ∀ {ns : List α} {ms : List β}, List.Forall₂ R ns ms → ∀ {n : α}, n ∈ ns →
      ∃ m, m ∈ ms ∧ R n m := by
  intro ns ms h
  induction h with
  | nil => intro n hn; cases hn
  | @cons a b l1 l2 hr _ ih =>
    intro n hn
    rcases List.mem_cons.1 hn with rfl | hn2
    · exact ⟨b, List.mem_cons_self b l2, hr⟩
    · obtain ⟨m, hm, hrm⟩ := ih hn2
      exact ⟨m, List.mem_cons_of_mem b hm, hrm⟩

theorem corr_congr {f f' : Int → Option Tool} :
    ∀ {ns : List Int} {ms : List String}, List.Forall₂ (RegR f) ns ms →
      (∀ n ∈ ns, f' n = f n) → List.Forall₂ (RegR f') ns ms := by
  intro ns ms h
  induction h with
  | nil => intro _; exact List.Forall₂.nil
  | @cons a b l1 l2 hr _ ih =>
    intro hf
    refine List.Forall₂.cons ?_ (ih fun n hn => hf n (List.mem_cons_of_mem a hn))
    obtain ⟨t, hft, htn⟩ := hr
    exact ⟨t, (hf a (List.mem_cons_self a l1)).trans hft, htn⟩

theorem corr_erase {f : Int → Option Tool} {tool : Tool} {prev : Int} :
    ∀ {ns : List Int} {ms : List String}, List.Forall₂ (RegR f) ns ms →
      ns.Nodup → ms.Nodup → f prev = some tool → prev ∈ ns →
      List.Forall₂ (RegR f) (ns.erase prev) (ms.erase tool.name) := by
  intro ns ms h
  induction h with
  | nil => intro _ _ _ hmem; cases hmem
  | @cons n m l1 l2 hr htail ih =>
    intro hnd1 hnd2 hf hmem
    by_cases hnp : n = prev
    · subst hnp
      obtain ⟨t, hft, htn⟩ := hr
      have ht : tool = t := Option.some.inj (hf.symm.trans hft)
      have hm : m = tool.name := by rw [← htn, ← ht]
      rw [List.erase_cons_head, hm, List.erase_cons_head]
      exact htail
    · have hmem2 : prev ∈ l1 := by
        rcases List.mem_cons.1 hmem with h2 | h2
        · exact absurd h2.symm hnp
        · exact h2
      have hmn : m ≠ tool.name := by
        intro hmeq
        obtain ⟨m2, hm2mem, hr2⟩ := forall2_mem_left htail hmem2
        obtain ⟨t2, hft2, htn2⟩ := hr2
        have ht2 : t2 = tool := Option.some.inj (hft2.symm.trans hf)
        have hm2 : m2 = tool.name := by rw [← htn2, ht2]
        have hmm2 : m = m2 := hmeq.trans hm2.symm
        apply (List.nodup_cons.1 hnd2).1
        rw [hmm2]
        exact hm2mem
      rw [List.erase_cons_tail (by simp [hnp]), List.erase_cons_tail (by simp [hmn])]
      exact List.Forall₂.cons hr
        (ih (List.nodup_cons.1 hnd1).2 (List.nodup_cons.1 hnd2).2 hf hmem2)

theorem corr_insert {R : Int → String → Prop} (x : Int) (y : String) :
    ∀ (p : Nat) {ns : List Int} {ms : List String}, List.Forall₂ R ns ms →
      R x y → List.Forall₂ R (ns.insertIdx p x) (ms.insertIdx p y) := by
  intro p
  induction p with
  | zero =>
    intro ns ms h hxy
    rw [List.insertIdx_zero, List.insertIdx_zero]
    exact List.Forall₂.cons hxy h
  | succ p ih =>
    intro ns ms h hxy
    cases h with
    | nil =>
      rw [List.insertIdx_succ_nil, List.insertIdx_succ_nil]
      exact List.Forall₂.nil
    | @cons a b l1 l2 hr ht =>
      rw [List.insertIdx_succ_cons, List.insertIdx_succ_cons]
      exact List.Forall₂.cons hr (ih ht hxy)


/-! ## Helper lemmas: the two blocks of `assign_tool` -/

theorem assign_removed_error {s : TCState} {tool : Tool} {p : Option Int}
    {e : PyErr} (h : assign_removed s tool p = .error e) : e = PyErr.valueError := by
  rcases p with _ | prev
  · simp [assign_removed] at h
  · simp only [assign_removed] at h
    by_cases hps : (s.tools prev).isSome = true
    · rw [if_pos hps] at h
      cases h1 : listRemove s.tool_numbers prev with
      | error e1 =>
        rw [h1] at h
        injection h with h2
        rw [← h2]
        exact listRemove_error _ _ _ h1
      | ok nums =>
        rw [h1] at h
        cases h2 : listRemove s.tool_names tool.name with
        | error e2 =>
          rw [h2] at h
          injection h with h3
          rw [← h3]
          exact listRemove_error _ _ _ h2
        | ok names => rw [h2] at h; cases h
    · rw [if_neg hps] at h; cases h

theorem assign_removed_sorted_len {s s1 : TCState} {tool : Tool} {p : Option Int}
    (h : assign_removed s tool p = .ok s1)
    (hs : List.Sorted (· ≤ ·) s.tool_numbers)
    (hl : s.tool_names.length = s.tool_numbers.length) :
    List.Sorted (· ≤ ·) s1.tool_numbers ∧
    s1.tool_names.length = s1.tool_numbers.length := by
  rcases p with _ | prev
  · cases h
    exact ⟨hs, hl⟩
  · simp only [assign_removed] at h
    by_cases hps : (s.tools prev).isSome = true
    · rw [if_pos hps] at h
      cases h1 : listRemove s.tool_numbers prev with
      | error e1 => rw [h1] at h; cases h
      | ok nums =>
        rw [h1] at h
        cases h2 : listRemove s.tool_names tool.name with
        | error e2 => rw [h2] at h; cases h
        | ok names =>
          rw [h2] at h
          obtain ⟨hpm, hne⟩ := listRemove_ok h1
          obtain ⟨hnm, hme⟩ := listRemove_ok h2
          injection h with h3
          subst h3
          subst hne
          subst hme
          refine ⟨hs.sublist (List.erase_sublist _ _), ?_⟩
          have e1 := List.length_erase_add_one hpm
          have e2 := List.length_erase_add_one hnm
          simp only []
          omega
    · rw [if_neg hps] at h
      cases h
      exact ⟨hs, hl⟩

theorem assign_insert_lookup (s1 : TCState) (tool : Tool) (number : Int) :
    lookup_tool (assign_insert s1 tool number) number = some tool := by
  simp [assign_insert, lookup_tool]

theorem assign_insert_sorted (s1 : TCState) (tool : Tool) (number : Int)
    (h : List.Sorted (· ≤ ·) s1.tool_numbers) :
    List.Sorted (· ≤ ·) (assign_insert s1 tool number).tool_numbers :=
  sorted_insert_bisect number _ h

theorem assign_insert_len (s1 : TCState) (tool : Tool) (number : Int)
    (h : s1.tool_names.length = s1.tool_numbers.length) :
    (assign_insert s1 tool number).tool_names.length =
      (assign_insert s1 tool number).tool_numbers.length := by
  have hb : bisect_left s1.tool_numbers number ≤ s1.tool_numbers.length :=
    bisect_le_length _ _
  have hb2 : bisect_left s1.tool_numbers number ≤ s1.tool_names.length := by omega
  simp only [assign_insert]
  rw [List.length_insertIdx _ _ hb2, List.length_insertIdx _ _ hb, h]

/-! ## Claim C5 -/

/-- C5: `assign_tool` fails with the duplicate-tool exception exactly when
the number is already registered and `replace` is false; and from any
well-ordered registry (numbers sorted, lists of equal length — the shape
every reachable registry has), a successful call makes `lookup_tool` return
the assigned tool for the number and leaves the two parallel lists sorted
by number and of equal length. -/
theorem C5_assign_tool_spec (s : TCState) (tool : Tool) (number : Int)
    (prev : Option Int) (replace : Bool) (s' : TCState) :
    (assign_tool s tool number prev replace =
        .error (.exception ("Duplicate tools with number " ++ toString number)) ↔
      ((s.tools number).isSome = true ∧ replace = false)) ∧
    (List.Sorted (· ≤ ·) s.tool_numbers →
      s.tool_names.length = s.tool_numbers.length →
      assign_tool s tool number prev replace = .ok s' →
      lookup_tool s' number = some tool ∧
      List.Sorted (· ≤ ·) s'.tool_numbers ∧
      s'.tool_names.length = s'.tool_numbers.length) := by
  constructor
  · constructor
    · intro herr
      by_contra hc
      unfold assign_tool at herr
      rw [if_neg hc] at herr
      cases hrem : assign_removed s tool prev with
      | error e =>
        rw [hrem] at herr
        injection herr with h2
        have he := assign_removed_error hrem
        subst he
        cases h2
      | ok s1 => rw [hrem] at herr; cases herr
    · intro hc
      unfold assign_tool
      rw [if_pos hc]
  · intro hs hl hok
    by_cases hc : (s.tools number).isSome = true ∧ replace = false
    · unfold assign_tool at hok
      rw [if_pos hc] at hok
      cases hok
    · unfold assign_tool at hok
      rw [if_neg hc] at hok
      cases hrem : assign_removed s tool prev with
      | error e => rw [hrem] at hok; cases hok
      | ok s1 =>
        rw [hrem] at hok
        injection hok with hok2
        subst hok2
        obtain ⟨hs1, hl1⟩ := assign_removed_sorted_len hrem hs hl
        exact ⟨assign_insert_lookup s1 tool number,
          assign_insert_sorted s1 tool number hs1,
          assign_insert_len s1 tool number hl1⟩

/-- C5 witness: the duplicate rejection on an occupied number, and a
successful registration into a two-tool registry. -/
theorem C5_assign_tool_spec_witness :
    ((s6.tools 2).isSome = true ∧ false = false) ∧
    assign_tool s6 toolA 2 (some 1) false =
      .error (.exception ("Duplicate tools with number " ++ toString (2 : Int))) ∧
    List.Sorted (· ≤ ·) s5.tool_numbers ∧
    s5.tool_names.length = s5.tool_numbers.length ∧
    assign_tool s5 toolB 2 none false = .ok s5' ∧
    lookup_tool s5' 2 = some toolB ∧
    List.Sorted (· ≤ ·) s5'.tool_numbers ∧
    s5'.tool_names.length = s5'.tool_numbers.length := by
  have hdup := (C5_assign_tool_spec s6 toolA 2 (some 1) false s6).1.2 ⟨rfl, rfl⟩
  have hok : assign_tool s5 toolB 2 none false = .ok s5' := rfl
  have hsucc := (C5_assign_tool_spec s5 toolB 2 none false s5').2
    (by decide) (by decide) hok
  exact ⟨⟨rfl, rfl⟩, hdup, by decide, by decide, hok,
    hsucc.1, hsucc.2.1, hsucc.2.2⟩

/-! ## Helper lemmas: registry invariant preservation -/

theorem assign_removed_eval {s : TCState} {tool : Tool} {prev : Int}
    (hps : (s.tools prev).isSome = true)
    (h1 : prev ∈ s.tool_numbers) (h2 : tool.name ∈ s.tool_names) :
    assign_removed s tool (some prev) =
      .ok { s with
        tools := fun k => if k = prev then none else s.tools k
        tool_numbers := s.tool_numbers.erase prev
        tool_names := s.tool_names.erase tool.name } := by
  simp only [assign_removed]
  rw [if_pos hps, listRemove_of_mem h1, listRemove_of_mem h2]

theorem RegWF_erase (s : TCState) (tool : Tool) (prev : Int)
    (hWF : RegWF s) (hprev : s.tools prev = some tool) :
    RegWF { s with
      tools := fun k => if k = prev then none else s.tools k
      tool_numbers := s.tool_numbers.erase prev
      tool_names := s.tool_names.erase tool.name } := by
  have hpm : prev ∈ s.tool_numbers := (hWF.keys prev).1 (by rw [hprev]; rfl)
  refine ⟨?_, ?_, ?_, ?_, ?_⟩
  · exact hWF.sorted.sublist (List.erase_sublist _ _)
  · exact hWF.nodup_numbers.sublist (List.erase_sublist _ _)
  · exact hWF.nodup_names.sublist (List.erase_sublist _ _)
  · intro n
    by_cases hn : n = prev
    · subst hn
      simp [List.Nodup.mem_erase_iff hWF.nodup_numbers]
    · simp only [if_neg hn]
      rw [List.Nodup.mem_erase_iff hWF.nodup_numbers]
      constructor
      · intro h
        exact ⟨hn, (hWF.keys n).1 h⟩
      · intro h
        exact (hWF.keys n).2 h.2
  · have c1 := corr_erase hWF.corr hWF.nodup_numbers hWF.nodup_names hprev hpm
    refine corr_congr c1 (fun n hn => ?_)
    have hnp : n ≠ prev := by
      intro h
      subst h
      exact ((List.Nodup.mem_erase_iff hWF.nodup_numbers).1 hn).1 rfl
    simp [hnp]

theorem RegWF_insert (s1 : TCState) (tool : Tool) (number : Int)
    (hWF : RegWF s1) (hnum : number ∉ s1.tool_numbers)
    (hname : tool.name ∉ s1.tool_names) :
    RegWF (assign_insert s1 tool number) := by
  have hlen : s1.tool_numbers.length = s1.tool_names.length := hWF.corr.length_eq
  have hb : bisect_left s1.tool_numbers number ≤ s1.tool_numbers.length :=
    bisect_le_length _ _
  have hb2 : bisect_left s1.tool_numbers number ≤ s1.tool_names.length := by omega
  have permn := insertIdx_perm number (bisect_left s1.tool_numbers number)
    s1.tool_numbers hb
  have permm := insertIdx_perm tool.name (bisect_left s1.tool_numbers number)
    s1.tool_names hb2
  refine ⟨assign_insert_sorted s1 tool number hWF.sorted, ?_, ?_, ?_, ?_⟩
  · simp only [assign_insert]
    exact permn.nodup_iff.2 (List.nodup_cons.2 ⟨hnum, hWF.nodup_numbers⟩)
  · simp only [assign_insert]
    exact permm.nodup_iff.2 (List.nodup_cons.2 ⟨hname, hWF.nodup_names⟩)
  · intro n
    simp only [assign_insert]
    rw [permn.mem_iff, List.mem_cons]
    by_cases hn : n = number
    · subst hn
      simp
    · simp only [if_neg hn]
      rw [hWF.keys n]
      constructor
      · intro h
        exact Or.inr h
      · rintro (h | h)
        · exact absurd h hn
        · exact h
  · simp only [assign_insert]
    refine corr_insert number tool.name _ ?_ ⟨tool, by simp, rfl⟩
    refine corr_congr hWF.corr (fun n hn => ?_)
    have hne : n ≠ number := fun h => hnum (h ▸ hn)
    simp [hne]

/-! ## Claim C6 -/

/-- C6 (counterexample): re-registering tool A (currently number 1) under
number 2 with `replace = true` while a different tool B already holds
number 2 leaves the number list as `[2, 2]` (and the name list as
`["A", "B"]` although B is no longer in the mapping): the registry DOES
contain duplicate number entries after this `assign_tool` call. -/
theorem C6_duplicate_counterexample :
    (assign_tool s6 toolA 2 (some 1) true).toOption.map
      (fun s => (s.tool_numbers, s.tool_names)) = some ([2, 2], ["A", "B"]) ∧
    ¬ ([2, 2] : List Int).Nodup := ⟨rfl, by decide⟩

/-- C6 (amended): re-registering an existing tool under a new number with
`replace = true` removes the old number/name pair exactly once before the
sorted insertion, and preserves the full registry invariant (no duplicate
numbers or names, equal lengths, index correspondence with the mapping) —
provided the new number is not held by some other entry (it is fresh, or
equal to the previous number). -/
theorem C6_reassign_invariant (s : TCState) (tool : Tool) (number prev : Int)
    (hWF : RegWF s) (hprev : s.tools prev = some tool)
    (hfresh : number = prev ∨ s.tools number = none) :
    exceptIsOk (assign_tool s tool number (some prev) true) = true ∧
    ∀ s', assign_tool s tool number (some prev) true = .ok s' →
      RegWF s' ∧ s'.tools number = some tool ∧
      (number ≠ prev → prev ∉ s'.tool_numbers ∧ s'.tools prev = none) ∧
      s'.tool_numbers.length = s.tool_numbers.length ∧
      s'.tool_names.length = s.tool_names.length := by
  have hps : (s.tools prev).isSome = true := by rw [hprev]; rfl
  have hpm : prev ∈ s.tool_numbers := (hWF.keys prev).1 hps
  have hname : tool.name ∈ s.tool_names := by
    obtain ⟨m, hmm, hr⟩ := forall2_mem_left hWF.corr hpm
    obtain ⟨t, hft, htn⟩ := hr
    have ht : t = tool := Option.some.inj (hft.symm.trans hprev)
    have hm : m = tool.name := by rw [← htn, ht]
    rw [← hm]
    exact hmm
  have hrem := assign_removed_eval hps hpm hname
  have heval : assign_tool s tool number (some prev) true =
      .ok (assign_insert { s with
        tools := fun k => if k = prev then none else s.tools k
        tool_numbers := s.tool_numbers.erase prev
        tool_names := s.tool_names.erase tool.name } tool number) := by
    unfold assign_tool
    rw [if_neg (by simp), hrem]
  have hWF2 := RegWF_erase s tool prev hWF hprev
  have hnum2 : number ∉ s.tool_numbers.erase prev := by
    rcases hfresh with h | h
    · subst h
      exact fun hmem =>
        ((List.Nodup.mem_erase_iff hWF.nodup_numbers).1 hmem).1 rfl
    · intro hmem
      have hm2 := ((List.Nodup.mem_erase_iff hWF.nodup_numbers).1 hmem).2
      have := (hWF.keys number).2 hm2
      rw [h] at this
      cases this
  have hname2 : tool.name ∉ s.tool_names.erase tool.name := fun hmem =>
    ((List.Nodup.mem_erase_iff hWF.nodup_names).1 hmem).1 rfl
  have hWF3 := RegWF_insert _ tool number hWF2 hnum2 hname2
  refine ⟨by rw [heval]; rfl, fun s' hok => ?_⟩
  rw [heval] at hok
  injection hok with hok2
  subst hok2
  have hb : bisect_left (s.tool_numbers.erase prev) number ≤
      (s.tool_numbers.erase prev).length := bisect_le_length _ _
  have hel1 := List.length_erase_add_one hpm
  have hel2 := List.length_erase_add_one hname
  have hl12 : (s.tool_names.erase tool.name).length =
      (s.tool_numbers.erase prev).length := by
    have := hWF.corr.length_eq
    omega
  have hb2 : bisect_left (s.tool_numbers.erase prev) number ≤
      (s.tool_names.erase tool.name).length := by omega
  have permn := insertIdx_perm number (bisect_left (s.tool_numbers.erase prev) number)
    (s.tool_numbers.erase prev) hb
  refine ⟨hWF3, by simp [assign_insert], fun hne => ⟨?_, ?_⟩, ?_, ?_⟩
  · simp only [assign_insert]
    rw [permn.mem_iff, List.mem_cons]
    rintro (h | h)
    · exact hne h.symm
    · exact ((List.Nodup.mem_erase_iff hWF.nodup_numbers).1 h).1 rfl
  · simp [assign_insert, Ne.symm hne]
  · simp only [assign_insert]
    rw [List.length_insertIdx _ _ hb]
    omega
  · simp only [assign_insert]
    rw [List.length_insertIdx _ _ hb2]
    omega

/-- C6 witness: re-registering tool A from number 1 to the fresh number 2
in the registry {1 ↦ A, 3 ↦ C}. -/
theorem C6_reassign_invariant_witness :
    RegWF s5 ∧ s5.tools 1 = some toolA ∧ ((2 : Int) = 1 ∨ s5.tools 2 = none) ∧
    exceptIsOk (assign_tool s5 toolA 2 (some 1) true) = true ∧
    assign_tool s5 toolA 2 (some 1) true = .ok s5r ∧
    RegWF s5r ∧ s5r.tools 2 = some toolA ∧
    ((2 : Int) ≠ 1 → 1 ∉ s5r.tool_numbers ∧ s5r.tools 1 = none) ∧
    s5r.tool_numbers.length = s5.tool_numbers.length ∧
    s5r.tool_names.length = s5.tool_names.length := by
  have hkeys : ∀ n : Int, (s5.tools n).isSome = true ↔ n ∈ s5.tool_numbers := by
    intro n
    by_cases h1 : n = 1
    · subst h1
      simp [s5]
    · by_cases h3 : n = 3
      · subst h3
        simp [s5]
      · simp [s5, h1, h3]
  have hcorr : List.Forall₂ (RegR s5.tools) s5.tool_numbers s5.tool_names :=
    List.Forall₂.cons ⟨toolA, rfl, rfl⟩
      (List.Forall₂.cons ⟨toolC, rfl, rfl⟩ List.Forall₂.nil)
  have hWF : RegWF s5 := ⟨by decide, by decide, by decide, hkeys, hcorr⟩
  have h := C6_reassign_invariant s5 toolA 2 1 hWF rfl (Or.inr rfl)
  have hok : assign_tool s5 toolA 2 (some 1) true = .ok s5r := rfl
  have h2 := h.2 s5r hok
  exact ⟨hWF, rfl, Or.inr rfl, h.1, hok, h2.1, h2.2.1, h2.2.2.1,
    h2.2.2.2.1, h2.2.2.2.2⟩

/-! ## Helper lemmas: status preservation across the hook runner -/

theorem popEffect_tc (w : World) : (popEffect w).2.tc = w.tc := by
  cases hw : w.effs <;> simp [popEffect, hw]

theorem run_gcode_ok_status {name : String} {w w' : World}
    (h : run_gcode name w = .ok w') : w'.tc.status = w.tc.status := by
  simp only [run_gcode] at h
  cases happ : applyScriptEffect (emit (popEffect w).2 (Event.hookRun name))
      (popEffect w).1 with
  | error em => rw [happ] at h; cases h
  | ok w2 =>
    rw [happ] at h
    dsimp only at h
    by_cases hcond : (popEffect w).2.tc.status ≠ w2.tc.status
    · rw [if_pos hcond] at h
      cases h
    · rw [if_neg hcond] at h
      cases h
      push_neg at hcond
      rw [← hcond, popEffect_tc]

theorem configure_tc_status (w : World) (t? : Option Tool) :
    (configure_toolhead_for_tool w t?).tc.status = w.tc.status := by
  cases ha : w.tc.active_tool <;> cases t? <;>
    simp [configure_toolhead_for_tool, emit, ha]

theorem set_offset_ok_tc {w w' : World} {t? : Option Tool}
    (h : set_tool_gcode_offset w t? = .ok w') : w'.tc = w.tc := by
  cases t? with
  | none => cases h; rfl
  | some tool =>
    simp only [set_tool_gcode_offset] at h
    split at h
    · cases h; rfl
    · split at h
      · split at h
        · cases h; rfl
        · cases h
      · cases h; rfl

theorem init_select_steps_ok_status {w w' : World} {sel : Option Tool}
    (h : init_select_steps w sel = .ok w') : w'.tc.status = w.tc.status := by
  cases sel with
  | none => cases h; rfl
  | some t =>
    simp only [init_select_steps] at h
    cases hrg : run_gcode "after_change_gcode"
        (configure_toolhead_for_tool w (some t)) with
    | error e => rw [hrg] at h; cases h
    | ok w2 =>
      rw [hrg] at h
      have h1 := run_gcode_ok_status hrg
      have h2 := congrArg TCState.status (set_offset_ok_tc h)
      rw [h2, h1, configure_tc_status]

/-! ## Claim C8 -/

/-- C8: `initialize` fails with the cannot-initialize exception — changing
nothing, the raised error carries the untouched state — when the status is
`changing`; when the status is already `initializing` (the re-entrant call
from inside the initialize hook) it performs exactly the activation/offset
block (`init_select_steps`, which never re-runs the initialize hook) and on
success leaves the status at `initializing` (no final transition); and an
outermost call (status neither `changing` nor `initializing`) that returns
successfully always ends with status `ready`. -/
theorem C8_initTC_spec (w : World) (sel : Option Tool) (w' : World) :
    (w.tc.status = Status.changing →
      initTC w sel = .error (.exception "Cannot initialize while changing tools", w)) ∧
    (w.tc.status = Status.initializing →
      initTC w sel = init_select_steps w sel ∧
      (initTC w sel = .ok w' → w'.tc.status = Status.initializing)) ∧
    (w.tc.status ≠ Status.changing → w.tc.status ≠ Status.initializing →
      initTC w sel = .ok w' → w'.tc.status = Status.ready) := by
  refine ⟨fun h => by simp [initTC, h], fun h => ?_, fun h1 h2 hok => ?_⟩
  · have heq : initTC w sel = init_select_steps w sel := by
      simp [initTC, h]
    refine ⟨heq, fun hok => ?_⟩
    rw [heq] at hok
    rw [init_select_steps_ok_status hok, h]
  · simp only [initTC, if_neg h1, if_neg h2] at hok
    cases hrg : run_gcode "initialize_gcode" (setStatus w Status.initializing) with
    | error e => rw [hrg] at hok; cases hok
    | ok w1 =>
      rw [hrg] at hok
      dsimp only at hok
      cases hss : init_select_steps w1 sel with
      | error e => rw [hss] at hok; cases hok
      | ok w2 =>
        rw [hss] at hok
        dsimp only at hok
        by_cases hw2 : w2.tc.status = Status.initializing
        · rw [if_pos hw2] at hok
          cases hok
          rfl
        · rw [if_neg hw2] at hok
          cases hok

/-- C8 witness: the three behaviors at concrete worlds — rejection while
changing, re-entrant activation-only call, successful outermost call. -/
theorem C8_initTC_spec_witness :
    W8c.tc.status = Status.changing ∧
    initTC W8c none = .error (.exception "Cannot initialize while changing tools", W8c) ∧
    W8i.tc.status = Status.initializing ∧
    initTC W8i (some T8) = init_select_steps W8i (some T8) ∧
    initTC W8i (some T8) = .ok W8i' ∧ W8i'.tc.status = Status.initializing ∧
    W8u.tc.status ≠ Status.changing ∧ W8u.tc.status ≠ Status.initializing ∧
    initTC W8u none = .ok W8u' ∧ W8u'.tc.status = Status.ready :=
  ⟨rfl, (C8_initTC_spec W8c none w0).1 rfl,
   rfl, ((C8_initTC_spec W8i (some T8) W8i').2.1 rfl).1,
   rfl, ((C8_initTC_spec W8i (some T8) W8i').2.1 rfl).2 rfl,
   by decide, by decide,
   rfl, (C8_initTC_spec W8u none W8u').2.2 (by decide) (by decide) rfl⟩
